import Mathlib

/-!
Shallow embedding of `bokeh/io/export.py` (PNG/SVG export of layouts via a
headless browser) and proofs of the specified properties.

Python strings are modelled as `List Char`; side effects (file writes, image
saves, log warnings) are recorded in an explicit effect trace; Python
exceptions are modelled with `Except`.
-/

namespace BokehExport

/-- Python strings are sequences of characters. -/
abbrev Str := List Char

/-- A Pillow image, as far as this module inspects it: its pixel dimensions
(`image.width`, `image.height`). -/
structure Image where
  width : Nat
  height : Nat
  deriving Repr, DecidableEq

/-- The Python exceptions this module raises or propagates. -/
inductive PyError where
  | valueError (msg : String)
  | runtimeError (msg : String)
  | propagated (msg : String)
  deriving Repr, DecidableEq

/-- Observable side effects of an export run, recorded in order. -/
inductive Effect where
  /-- `image.save(filename)` — Pillow writing the PNG file. -/
  | saveImage (path : Str) (img : Image)
  /-- `io.open(filename, mode="w").write(content)` — writing a text file. -/
  | writeFile (path : Str) (content : Str)
  /-- `log.warning(msg)`. -/
  | logWarning (msg : String)
  /-- `warnings.warn(msg)`. -/
  | warn (msg : String)
  deriving Repr, DecidableEq

/-- `p.startsWith "/"` — whether a POSIX path is absolute
(`os.path.isabs`). -/
def isAbs (p : Str) : Bool :=
  match p with
  | [] => false
  | c :: _ => c == '/'

/-- `os.path.abspath`: a relative path is joined onto the current working
directory (normalization is omitted; it does not affect absoluteness, which is
all this module's callers rely on). -/
def abspath (cwd p : Str) : Str :=
  if isAbs p then p else cwd ++ ('/' :: p)

/-- `export_png(obj, filename, ...)`, starting from the result of
`get_screenshot_as_png` (which may have raised — the exception then
propagates).  Derives the default filename when none is given, rejects an
image with a zero dimension with a `ValueError` before any save, otherwise
saves the image and returns `abspath(filename)`. -/
def export_png (imageRes : Except PyError Image) (fn? : Option Str)
    (defaultName cwd : Str) : Except PyError Str × List Effect :=
  match imageRes with
  | .error e => (.error e, [])
  | .ok image =>
    let filename := fn?.getD defaultName
    if image.width == 0 || image.height == 0 then
      (.error (.valueError "unable to save an empty image"), [])
    else
      (.ok (abspath cwd filename), [.saveImage filename image])

/-- `matchesAt s sub`: `sub` occurs in `s` starting at its first character
(i.e. `sub` is an initial segment of `s`). -/
def matchesAt : Str → Str → Bool
  | _, [] => true
  | [], _ :: _ => false
  | c :: cs, d :: ds => c == d && matchesAt cs ds

/-- First index at which `sub` occurs in `s`, if any. -/
def findSub : Str → Str → Option Nat
  | [], sub => if sub == [] then some 0 else none
  | c :: rest, sub =>
    if matchesAt (c :: rest) sub then some 0
    else (findSub rest sub).map (· + 1)

/-- Python `s.find(sub)`: the first index of `sub` in `s`, or `-1`. -/
def pyFind (s sub : Str) : Int :=
  match findSub s sub with
  | some i => (i : Int)
  | none => -1

/-- Clamp a Python slice bound to an index into a string of length `len`
(negative indices count from the end, out-of-range bounds are clamped). -/
def sliceIdx (len : Nat) (i : Int) : Nat :=
  (Int.toNat (if i < 0 then (len : Int) + i else i)).min len

/-- Python `s[:i]`. -/
def pySliceTo (s : Str) (i : Int) : Str := s.take (sliceIdx s.length i)

/-- Python `s[i:]`. -/
def pySliceFrom (s : Str) (i : Int) : Str := s.drop (sliceIdx s.length i)

/-- The decimal digits of `i`, as `"_{}".format(i)` renders them. -/
def natDigits (i : Nat) : Str := (toString i).toList

/-- The loop step of `export_svgs` for `i ≥ 1`:
`idx = filename.find(".svg"); filename = filename[:idx] + "_{}".format(i) + filename[idx:]`. -/
def nextFilename (filename : Str) (i : Nat) : Str :=
  let idx := pyFind filename ".svg".toList
  pySliceTo filename idx ++ ('_' :: natDigits i) ++ pySliceFrom filename idx

/-- The write loop of `export_svgs`: for each SVG (index `i` from
`enumerate`), the filename is kept as-is when `i == 0` and otherwise derived
from the previously used filename; the SVG is written to that file and the
name is collected.  Returns the collected names and the write effects. -/
def writeLoop : List Str → Str → Nat → List Str × List Effect
  | [], _, _ => ([], [])
  | svg :: rest, filename, i =>
    let fname := if i == 0 then filename else nextFilename filename i
    let next := writeLoop rest fname (i + 1)
    (fname :: next.1, .writeFile fname svg :: next.2)

/-- The warning logged when no SVG plots are found. -/
def noSvgWarning : String := "No SVG Plots were found."

/-- `export_svgs(obj, filename, ...)`, starting from the result of
`get_svgs` (which may have raised — the exception then propagates).  When the
SVG list is empty it logs a warning and returns `None`; otherwise it writes
each SVG to a file derived from the filename and returns the list of
filenames. -/
def export_svgs (svgsRes : Except PyError (List Str)) (fn? : Option Str)
    (defaultName : Str) : Except PyError (Option (List Str)) × List Effect :=
  match svgsRes with
  | .error e => (.error e, [])
  | .ok svgs =>
    if svgs.length == 0 then
      (.ok none, [.logWarning noSvgWarning])
    else
      let filename := fn?.getD defaultName
      let result := writeLoop svgs filename 0
      (.ok (some result.1), result.2)

/-! ## The polling wait (`wait_until_render_complete`) -/

/-- A console log entry captured from the browser session
(`driver.get_log('browser')` returns entries with a `level` and a
`message`). -/
structure ConsoleMsg where
  level : String
  message : String
  deriving Repr, DecidableEq

/-- The header `_log_console` logs before the individual messages. -/
def consoleHeader : String :=
  "There were browser warnings and/or errors that may have affected your export"

/-- `_log_console(driver)`: keep the captured entries whose level is in
`{'WARNING', 'ERROR', 'SEVERE'}`; when any remain, log a header warning
followed by each message. -/
def logConsole (logs : List ConsoleMsg) : List Effect :=
  let levels : List String := ["WARNING", "ERROR", "SEVERE"]
  let messages := (logs.filter (fun l => levels.contains l.level)).map (·.message)
  if messages.length > 0 then
    .logWarning consoleHeader :: messages.map .logWarning
  else
    []

/-- `WebDriverWait(driver, timeout, poll_frequency=0.1).until(cond)`:
the condition (a function of the poll tick, one tick per 0.1 s interval) is
evaluated at ticks `i, i+1, ...` until it is true or the fuel (the timeout
divided by the poll interval) is exhausted.  Returns the tick of the first
success, or `none` for a `TimeoutException`. -/
def pollFrom (cond : Nat → Bool) : Nat → Nat → Option Nat
  | _, 0 => none
  | i, fuel + 1 => if cond i then some i else pollFrom cond (i + 1) fuel

/-- Polling from tick 0. -/
def pollUntil (cond : Nat → Bool) (fuel : Nat) : Option Nat :=
  pollFrom cond 0 fuel

/-- The `RuntimeError` message on a library-load timeout. -/
def notLoadedMsg : String :=
  "Bokeh was not loaded in time. Something may have gone wrong."

/-- The warning logged on a render-complete timeout (the source text quotes
the bokeh:idle event name). -/
def renderTimeoutWarning : String :=
  "The webdriver raised a TimeoutException while waiting for a bokeh:idle event to signify that the layout has rendered. Something may have gone wrong."

/-- `wait_until_render_complete(driver, timeout)`: poll `is_bokeh_loaded`
until true or timeout — on timeout, surface the console log and raise a
`RuntimeError`; then run the wait script and poll `is_bokeh_render_complete`
until true or timeout — on timeout log a warning instead of raising; in
either case surface the console log before returning.  The two browser-side
conditions are modelled as functions of the poll tick, and the captured
console log as a list. -/
def wait_until_render_complete (bokehLoaded renderComplete : Nat → Bool)
    (logs : List ConsoleMsg) (fuel : Nat) : Except PyError Unit × List Effect :=
  match pollUntil bokehLoaded fuel with
  | none => (.error (.runtimeError notLoadedMsg), logConsole logs)
  | some _ =>
    match pollUntil renderComplete fuel with
    | none => (.ok (), .logWarning renderTimeoutWarning :: logConsole logs)
    | some _ => (.ok (), logConsole logs)

/-! ## Temporary-file lifecycle (`_TempFile` / `get_screenshot_as_png` / `get_svgs`) -/

/-- The filesystem, reduced to which paths currently exist. -/
structure FS where
  files : List Str
  deriving Repr, DecidableEq

/-- `mkstemp` — the temporary file comes into existence. -/
def fsCreate (fs : FS) (p : Str) : FS := ⟨p :: fs.files⟩

/-- `io.open(p, mode="w")` followed by a write — creates the path if absent
(the content itself is not tracked by the filesystem model; it is recorded in
the effect trace instead). -/
def fsWrite (fs : FS) (p : Str) : FS :=
  if p ∈ fs.files then fs else ⟨p :: fs.files⟩

/-- `os.unlink(p)` as performed by `_TempFile.close` — the path no longer
exists. -/
def fsUnlink (fs : FS) (p : Str) : FS := ⟨fs.files.filter (fun q => q != p)⟩

/-- The `with`-statement discipline of `_TempFile`: run the body (which may
raise), then `__exit__` runs `close` on every exit path. -/
def withTempFile {α : Type} (body : FS → Except PyError α × FS)
    (tmpPath : Str) (fs : FS) : Except PyError α × FS :=
  let entered := body fs
  (entered.1, fsUnlink entered.2 tmpPath)

/-- `get_screenshot_as_png(obj, ...)`, with the external collaborators as
parameters: `get_layout_html` result (may raise), and the driver phase
(navigation, `wait_until_render_complete`, viewport, screenshot — any of which
may raise) yielding the decoded image.  The temp HTML file is created, the
body runs under the `with` scope, and the temp file is unlinked on every exit
path. -/
def get_screenshot_as_png (tmpPath : Str) (htmlRes : Except PyError Str)
    (driverRes : Except PyError Image) (fs : FS) : Except PyError Image × FS :=
  let fs := fsCreate fs tmpPath
  withTempFile (fun fs =>
      match htmlRes with
      | .error e => (.error e, fs)
      | .ok _ =>
        let fs := fsWrite fs tmpPath
        match driverRes with
        | .error e => (.error e, fs)
        | .ok png => (.ok png, fs))
    tmpPath fs

/-- `get_svgs(obj, ...)`, same structure as `get_screenshot_as_png` with the
driver phase yielding the serialized SVG strings. -/
def get_svgs (tmpPath : Str) (htmlRes : Except PyError Str)
    (driverRes : Except PyError (List Str)) (fs : FS) :
    Except PyError (List Str) × FS :=
  let fs := fsCreate fs tmpPath
  withTempFile (fun fs =>
      match htmlRes with
      | .error e => (.error e, fs)
      | .ok _ =>
        let fs := fsWrite fs tmpPath
        match driverRes with
        | .error e => (.error e, fs)
        | .ok svgs => (.ok svgs, fs))
    tmpPath fs

/-! ## `get_layout_html` -/

/-- The fields of a `Plot` object that `get_layout_html` touches
(`plot_height` / `plot_width`); every other attribute of the object is
collected in `rest`.  A dimension can transiently hold `none` because
`kwargs.get('height', old_height)` yields `None` when the key is present with
value `None`. -/
structure Plot (α : Type) where
  plot_height : Option Int
  plot_width : Option Int
  rest : α
  deriving Repr

/-- Python `kwargs.get(key, dflt)` for a keyword that may be absent
(`none`) or present with an optional value. -/
def kwGet (kw : Option (Option Int)) (dflt : Option Int) : Option Int :=
  match kw with
  | none => dflt
  | some v => v

/-- The warning issued when size kwargs are passed for a non-`Plot` layout. -/
def nonPlotSizeWarning : String :=
  "Export method called with height or width kwargs on a non-Plot layout. The size values will be ignored."

/-- `get_layout_html(obj, resources, **kwargs)` for a `Plot` object
(`isPlot` records the `isinstance(obj, Plot)` test; the non-`Plot` branch only
warns).  When a height or width keyword with a non-`None` value is present,
the plot is resized for the call and the old dimensions are restored in a
`finally` block, whether `file_html` (passed in as `render`, since it lives in
another module and may raise) succeeds or raises. -/
def get_layout_html {α : Type} (isPlot : Bool) (obj : Plot α)
    (hk wk : Option (Option Int)) (render : Plot α → Except PyError Str) :
    Except PyError Str × Plot α × List Effect :=
  if (kwGet hk none).isSome || (kwGet wk none).isSome then
    if isPlot then
      let old_height := obj.plot_height
      let old_width := obj.plot_width
      let resized :=
        { obj with
          plot_height := kwGet hk old_height
          plot_width := kwGet wk old_width }
      let res := render resized
      let restored :=
        { resized with plot_height := old_height, plot_width := old_width }
      (res, restored, [])
    else
      (render obj, obj, [.warn nonPlotSizeWarning])
  else
    (render obj, obj, [])

/-! ## Helper lemmas -/

theorem isAbs_abspath (cwd p : Str) (h : isAbs cwd = true) :
    isAbs (abspath cwd p) = true := by
  unfold abspath
  by_cases hp : isAbs p
  · rw [if_pos hp]; exact hp
  · rw [if_neg hp]
    cases cwd with
    | nil => simp [isAbs] at h
    | cons c cs => simpa [isAbs] using h

theorem fsUnlink_not_mem (fs : FS) (p : Str) : p ∉ (fsUnlink fs p).files := by
  unfold fsUnlink
  intro h
  have := List.of_mem_filter h
  simp at this

theorem writeLoop_effects (svgs : List Str) (filename : Str) (i : Nat) :
    (writeLoop svgs filename i).2 =
      List.zipWith Effect.writeFile (writeLoop svgs filename i).1 svgs := by
  induction svgs generalizing filename i with
  | nil => rfl
  | cons s rest ih => simp [writeLoop, ih]

theorem writeLoop_head (svg : Str) (rest : List Str) (filename : Str) :
    (writeLoop (svg :: rest) filename 0).1.head? = some filename := by
  simp [writeLoop]

end BokehExport

namespace BokehExport

/-- C2: on an empty SVG list, `export_svgs` returns `None` (no output
paths) without raising, its only effect is the "no SVG plots" warning, and
in particular it writes nothing to disk. -/
theorem C2_export_svgs_empty (fn? : Option Str) (defaultName : Str) :
    (export_svgs (.ok []) fn? defaultName).1 = .ok none ∧
    (export_svgs (.ok []) fn? defaultName).2 = [.logWarning noSvgWarning] ∧
    (∀ p c, Effect.writeFile p c ∉ (export_svgs (.ok []) fn? defaultName).2) ∧
    (∀ p img, Effect.saveImage p img ∉ (export_svgs (.ok []) fn? defaultName).2) := by
  refine ⟨rfl, rfl, ?_, ?_⟩ <;> intro p x <;> simp [export_svgs]

/-- C3: an image with zero width or zero height makes `export_png` raise a
`ValueError`, with an empty effect trace — in particular no save or write
happens on that path. -/
theorem C3_export_png_zero_dim (image : Image) (fn? : Option Str)
    (defaultName cwd : Str) (h : image.width = 0 ∨ image.height = 0) :
    export_png (.ok image) fn? defaultName cwd =
      (.error (.valueError "unable to save an empty image"), []) := by
  rcases h with h | h <;> simp [export_png, h]

/-- Witness for C3 at the concrete image 0 × 4. -/
theorem C3_witness :
    ((⟨0, 4⟩ : Image).width = 0 ∨ (⟨0, 4⟩ : Image).height = 0) ∧
    export_png (.ok ⟨0, 4⟩) (some "p.png".toList) "d.png".toList "/cwd".toList =
      (.error (.valueError "unable to save an empty image"), []) :=
  ⟨Or.inl rfl,
   C3_export_png_zero_dim ⟨0, 4⟩ (some "p.png".toList) "d.png".toList
     "/cwd".toList (Or.inl rfl)⟩

/-- C4: after `get_screenshot_as_png` or `get_svgs` returns — whether the
HTML generation raised, the driver phase raised, or everything succeeded —
the temporary HTML file no longer exists. -/
theorem C4_tempfile_removed (tmpPath : Str) (htmlRes : Except PyError Str)
    (pngRes : Except PyError Image) (svgRes : Except PyError (List Str))
    (fs : FS) :
    tmpPath ∉ (get_screenshot_as_png tmpPath htmlRes pngRes fs).2.files ∧
    tmpPath ∉ (get_svgs tmpPath htmlRes svgRes fs).2.files :=
  ⟨fsUnlink_not_mem _ tmpPath, fsUnlink_not_mem _ tmpPath⟩

/-- C9: `get_layout_html` on a `Plot` with a height or width keyword leaves
the object exactly as it found it: `plot_height` and `plot_width` are
restored by the `finally` block whether the HTML render (`render`, standing
for `file_html`) succeeds or raises, and the remaining attributes (`rest`)
are never touched. -/
theorem C9_plot_dims_restored {α : Type} (obj : Plot α)
    (hk wk : Option (Option Int)) (render : Plot α → Except PyError Str)
    (_hkw : hk ≠ none ∨ wk ≠ none) :
    (get_layout_html true obj hk wk render).2.1.plot_height = obj.plot_height ∧
    (get_layout_html true obj hk wk render).2.1.plot_width = obj.plot_width ∧
    (get_layout_html true obj hk wk render).2.1.rest = obj.rest := by
  unfold get_layout_html
  by_cases h : (kwGet hk none).isSome || (kwGet wk none).isSome <;> simp [h]

theorem pollFrom_none_iff (cond : Nat → Bool) (fuel i : Nat) :
    pollFrom cond i fuel = none ↔
      ∀ j, i ≤ j → j < i + fuel → cond j = false := by
  induction fuel generalizing i with
  | zero =>
    simp only [pollFrom]
    constructor
    · intro _ j h1 h2; omega
    · intro _; trivial
  | succ n ih =>
    simp only [pollFrom]
    by_cases h : cond i
    · rw [if_pos h]
      constructor
      · intro hc; simp at hc
      · intro hall
        have := hall i (Nat.le_refl i) (by omega)
        rw [h] at this; cases this
    · have hf : cond i = false := by simpa using h
      rw [if_neg h, ih]
      constructor
      · intro hall j h1 h2
        rcases Nat.eq_or_lt_of_le h1 with rfl | hlt
        · exact hf
        · exact hall j hlt (by omega)
      · intro hall j h1 h2
        exact hall j (by omega) (by omega)

theorem pollFrom_some_iff (cond : Nat → Bool) (fuel i k : Nat) :
    pollFrom cond i fuel = some k ↔
      i ≤ k ∧ k < i + fuel ∧ cond k = true ∧
        ∀ j, i ≤ j → j < k → cond j = false := by
  induction fuel generalizing i with
  | zero =>
    simp only [pollFrom]
    constructor
    · intro h; simp at h
    · rintro ⟨h1, h2, -, -⟩; omega
  | succ n ih =>
    simp only [pollFrom]
    by_cases h : cond i
    · rw [if_pos h]
      constructor
      · intro hk
        have hk2 : i = k := Option.some.inj hk
        refine ⟨by omega, by omega, hk2 ▸ h, ?_⟩
        intro j h1 h2
        exact absurd h2 (by omega)
      · rintro ⟨h1, h2, h3, h4⟩
        rcases Nat.eq_or_lt_of_le h1 with rfl | hlt
        · rfl
        · have := h4 i (Nat.le_refl _) hlt
          rw [h] at this; cases this
    · have hf : cond i = false := by simpa using h
      rw [if_neg h, ih]
      constructor
      · rintro ⟨h1, h2, h3, h4⟩
        refine ⟨by omega, by omega, h3, ?_⟩
        intro j hj1 hj2
        rcases Nat.eq_or_lt_of_le hj1 with rfl | hlt
        · exact hf
        · exact h4 j (by omega) hj2
      · rintro ⟨h1, h2, h3, h4⟩
        refine ⟨?_, by omega, h3, fun j hj1 hj2 => h4 j (by omega) hj2⟩
        rcases Nat.eq_or_lt_of_le h1 with rfl | hlt
        · rw [hf] at h3; cases h3
        · omega

theorem pollUntil_none_iff (cond : Nat → Bool) (fuel : Nat) :
    pollUntil cond fuel = none ↔ ∀ i, i < fuel → cond i = false := by
  unfold pollUntil
  rw [pollFrom_none_iff]
  constructor
  · intro h j hj; exact h j (Nat.zero_le j) (by omega)
  · intro h j _ hj; exact h j (by omega)

theorem pollUntil_some_iff (cond : Nat → Bool) (fuel k : Nat) :
    pollUntil cond fuel = some k ↔
      k < fuel ∧ cond k = true ∧ ∀ j, j < k → cond j = false := by
  unfold pollUntil
  rw [pollFrom_some_iff]
  constructor
  · rintro ⟨-, h2, h3, h4⟩
    exact ⟨by omega, h3, fun j hj => h4 j (Nat.zero_le j) hj⟩
  · rintro ⟨h1, h2, h3⟩
    exact ⟨Nat.zero_le k, by omega, h2, fun j _ hj => h3 j hj⟩

/-- C5: when the "library loaded" condition is never true within the
timeout, `wait_until_render_complete` raises the `RuntimeError`, and the
render-complete phase is never entered — the run is independent of the
render-complete condition. -/
theorem C5_load_timeout (bl rc : Nat → Bool) (logs : List ConsoleMsg)
    (fuel : Nat) (h : ∀ i, i < fuel → bl i = false) :
    (wait_until_render_complete bl rc logs fuel).1 =
      .error (.runtimeError notLoadedMsg) ∧
    ∀ rc₂, wait_until_render_complete bl rc logs fuel =
      wait_until_render_complete bl rc₂ logs fuel := by
  have hnone : pollUntil bl fuel = none := (pollUntil_none_iff bl fuel).mpr h
  constructor
  · simp [wait_until_render_complete, hnone]
  · intro rc₂; simp [wait_until_render_complete, hnone]

/-- Witness for C5: the library never loads within 3 poll ticks. -/
theorem C5_witness :
    (∀ i, i < 3 → (fun _ => false) i = false) ∧
    ((wait_until_render_complete (fun _ => false) (fun _ => true) [] 3).1 =
        .error (.runtimeError notLoadedMsg) ∧
      ∀ rc₂, wait_until_render_complete (fun _ => false) (fun _ => true) [] 3 =
        wait_until_render_complete (fun _ => false) rc₂ [] 3) :=
  ⟨fun _ _ => rfl,
   C5_load_timeout (fun _ => false) (fun _ => true) [] 3 (fun _ _ => rfl)⟩

/-- C6: when the library loads but the "render complete" condition is never
true within the timeout, `wait_until_render_complete` returns normally, its
trace being the render-timeout warning followed by the surfaced console
log — no exception. -/
theorem C6_render_timeout (bl rc : Nat → Bool) (logs : List ConsoleMsg)
    (fuel : Nat) (hl : ∃ i, i < fuel ∧ bl i = true)
    (hr : ∀ i, i < fuel → rc i = false) :
    (wait_until_render_complete bl rc logs fuel).1 = .ok () ∧
    (wait_until_render_complete bl rc logs fuel).2 =
      .logWarning renderTimeoutWarning :: logConsole logs := by
  have hrnone : pollUntil rc fuel = none := (pollUntil_none_iff rc fuel).mpr hr
  cases hb : pollUntil bl fuel with
  | none =>
    obtain ⟨i, hi, hbi⟩ := hl
    have := (pollUntil_none_iff bl fuel).mp hb i hi
    rw [hbi] at this; cases this
  | some k =>
    constructor <;> simp [wait_until_render_complete, hb, hrnone]

/-- Witness for C6: the library is loaded at tick 0, render never
completes within 2 ticks. -/
theorem C6_witness :
    (∃ i, i < 2 ∧ (fun _ => true) i = true) ∧
    (∀ i, i < 2 → (fun _ => false) i = false) ∧
    ((wait_until_render_complete (fun _ => true) (fun _ => false) [] 2).1 =
        .ok () ∧
      (wait_until_render_complete (fun _ => true) (fun _ => false) [] 2).2 =
        .logWarning renderTimeoutWarning :: logConsole []) :=
  ⟨⟨0, by omega, rfl⟩, fun _ _ => rfl,
   C6_render_timeout (fun _ => true) (fun _ => false) [] 2
     ⟨0, by omega, rfl⟩ (fun _ _ => rfl)⟩

/-- The sequence of filenames `export_svgs` uses: the given filename first,
then each one derived from the previously used filename. -/
def nameSeq (filename : Str) : Nat → Str
  | 0 => filename
  | k + 1 => nextFilename (nameSeq filename k) (k + 1)

/-- Stated as the claim words it: insert `"_i"` immediately before the first
occurrence of `".svg"` (identity when `".svg"` does not occur; the claim
only concerns filenames in which it does). -/
def insertBeforeFirstSvg (f : Str) (i : Nat) : Str :=
  match findSub f ".svg".toList with
  | some j => f.take j ++ ('_' :: natDigits i) ++ f.drop j
  | none => f

theorem writeLoop_names_from (rest : List Str) (filename : Str) (i : Nat) :
    (writeLoop rest (nameSeq filename i) (i + 1)).1 =
      (List.range rest.length).map (fun k => nameSeq filename (i + 1 + k)) := by
  induction rest generalizing i with
  | nil => simp [writeLoop]
  | cons s rest ih =>
    simp only [writeLoop, List.length_cons]
    rw [if_neg (by simp)]
    have hstep : nextFilename (nameSeq filename i) (i + 1) =
        nameSeq filename (i + 1) := rfl
    rw [hstep]
    have := ih (i + 1)
    rw [List.range_succ_eq_map, List.map_cons, List.map_map, this]
    refine congrArg₂ List.cons (by rw [Nat.add_zero]) ?_
    apply List.map_congr_left
    intro a _
    simp only [Function.comp]
    congr 1
    omega

theorem writeLoop_names (svgs : List Str) (filename : Str) :
    (writeLoop svgs filename 0).1 =
      (List.range svgs.length).map (nameSeq filename) := by
  cases svgs with
  | nil => simp [writeLoop]
  | cons s rest =>
    have hred : (writeLoop (s :: rest) filename 0).1 =
        filename :: (writeLoop rest filename 1).1 := rfl
    rw [hred]
    have h1 : (writeLoop rest (nameSeq filename 0) (0 + 1)).1 =
        (List.range rest.length).map (fun k => nameSeq filename (0 + 1 + k)) :=
      writeLoop_names_from rest filename 0
    simp only [Nat.zero_add] at h1
    rw [show (writeLoop rest filename 1).1 =
          (List.range rest.length).map (fun k => nameSeq filename (1 + k))
        from h1]
    rw [List.length_cons, List.range_succ_eq_map, List.map_cons, List.map_map]
    refine congrArg₂ List.cons rfl ?_
    apply List.map_congr_left
    intro a _
    simp only [Function.comp]
    congr 1
    omega

theorem sliceIdx_le (len : Nat) (i : Int) : sliceIdx len i ≤ len :=
  Nat.min_le_right _ _

theorem nextFilename_length (filename : Str) (i : Nat) :
    (nextFilename filename i).length =
      filename.length + 1 + (natDigits i).length := by
  unfold nextFilename pySliceTo pySliceFrom
  have hle := sliceIdx_le filename.length (pyFind filename ".svg".toList)
  simp only [List.length_append, List.length_take, List.length_cons,
    List.length_drop]
  omega

theorem nameSeq_length_lt (filename : Str) (k : Nat) :
    (nameSeq filename k).length < (nameSeq filename (k + 1)).length := by
  show (nameSeq filename k).length <
    (nextFilename (nameSeq filename k) (k + 1)).length
  rw [nextFilename_length]
  omega

theorem nameSeq_injective (filename : Str) :
    Function.Injective (nameSeq filename) := by
  have hmono : StrictMono (fun k => (nameSeq filename k).length) :=
    strictMono_nat_of_lt_succ (fun k => nameSeq_length_lt filename k)
  have hinj := hmono.injective
  intro a b hab
  exact hinj (by simp only [hab])

theorem findSub_le_length (s sub : Str) (j : Nat)
    (h : findSub s sub = some j) : j ≤ s.length := by
  induction s generalizing j with
  | nil =>
    simp only [findSub] at h
    split at h
    · cases Option.some.inj h
      exact Nat.le_refl 0
    · cases h
  | cons c rest ih =>
    simp only [findSub] at h
    split at h
    · cases Option.some.inj h
      exact Nat.zero_le _
    · rcases Option.map_eq_some'.mp h with ⟨j', hj', hadd⟩
      have := ih j' hj'
      simp only [List.length_cons]
      omega

theorem findSub_matchesAt (s sub : Str) (j : Nat)
    (h : findSub s sub = some j) : matchesAt (s.drop j) sub = true := by
  induction s generalizing j with
  | nil =>
    simp only [findSub] at h
    split at h
    · rename_i hsub
      have hsub2 : sub = [] := by simpa using hsub
      cases Option.some.inj h
      subst hsub2
      rfl
    · cases h
  | cons c rest ih =>
    simp only [findSub] at h
    split at h
    · rename_i hm
      cases Option.some.inj h
      exact hm
    · rcases Option.map_eq_some'.mp h with ⟨j', hj', hadd⟩
      subst hadd
      exact ih j' hj'

theorem matchesAt_findSub (s sub : Str) (h : matchesAt s sub = true) :
    findSub s sub = some 0 := by
  cases s with
  | nil =>
    cases sub with
    | nil => rfl
    | cons d ds => simp [matchesAt] at h
  | cons c rest =>
    simp only [findSub]
    rw [if_pos h]

theorem findSub_append_ne_none (l₁ l₂ sub : Str)
    (h : matchesAt l₂ sub = true) : findSub (l₁ ++ l₂) sub ≠ none := by
  induction l₁ with
  | nil =>
    rw [List.nil_append, matchesAt_findSub l₂ sub h]
    simp
  | cons c l₁ ih =>
    rw [List.cons_append]
    simp only [findSub]
    by_cases hm : matchesAt (c :: (l₁ ++ l₂)) sub = true
    · rw [if_pos hm]; simp
    · rw [if_neg hm]
      intro hcon
      exact ih (Option.map_eq_none'.mp hcon)

theorem nextFilename_eq_insert (f : Str) (i j : Nat)
    (h : findSub f ".svg".toList = some j) :
    nextFilename f i = insertBeforeFirstSvg f i := by
  have hle := findSub_le_length f ".svg".toList j h
  have hidx : sliceIdx f.length ((j : Nat) : Int) = j := by
    unfold sliceIdx
    rw [if_neg (by omega)]
    simp only [Int.toNat_natCast]
    exact Nat.min_eq_left hle
  unfold nextFilename insertBeforeFirstSvg pyFind pySliceTo pySliceFrom
  simp only [h, hidx]

theorem nameSeq_findSub_ne_none (filename : Str)
    (h : findSub filename ".svg".toList ≠ none) (k : Nat) :
    findSub (nameSeq filename k) ".svg".toList ≠ none := by
  induction k with
  | zero => exact h
  | succ k ih =>
    cases hcase : findSub (nameSeq filename k) ".svg".toList with
    | none => exact absurd hcase ih
    | some j =>
      show findSub (nextFilename (nameSeq filename k) (k + 1)) _ ≠ none
      rw [nextFilename_eq_insert _ _ j hcase]
      unfold insertBeforeFirstSvg
      rw [hcase]
      exact findSub_append_ne_none _ _ _
        (findSub_matchesAt _ _ j hcase)

theorem nameSeq_succ_insert (filename : Str)
    (h : findSub filename ".svg".toList ≠ none) (k : Nat) :
    nameSeq filename (k + 1) =
      insertBeforeFirstSvg (nameSeq filename k) (k + 1) := by
  cases hcase : findSub (nameSeq filename k) ".svg".toList with
  | none => exact absurd hcase (nameSeq_findSub_ne_none filename h k)
  | some j =>
    show nextFilename (nameSeq filename k) (k + 1) = _
    exact nextFilename_eq_insert _ _ j hcase

theorem export_svgs_ok (svgs : List Str) (filename defaultName : Str)
    (hne : svgs ≠ []) :
    export_svgs (.ok svgs) (some filename) defaultName =
      (.ok (some (writeLoop svgs filename 0).1),
        (writeLoop svgs filename 0).2) := by
  have hlen : (svgs.length == 0) = false := by
    simp [List.length_eq_zero, hne]
  simp [export_svgs, hlen]

/-- C10: on a non-empty list of `n` SVGs and a
filename containing `".svg"`, `export_svgs` returns `n` pairwise-distinct
filenames, writes exactly those files with exactly those SVG contents, the
first name is the given filename, and every later name arises from the
previously used one by inserting `"_i"` (with `i` the position of the file
in the run, starting at 1 for the second file) immediately before its first
occurrence of `".svg"`. -/
theorem C10_svg_filename_sequence (svgs : List Str)
    (filename defaultName : Str) (hne : svgs ≠ [])
    (hsvg : findSub filename ".svg".toList ≠ none) :
    ∃ names,
      export_svgs (.ok svgs) (some filename) defaultName =
        (.ok (some names), List.zipWith Effect.writeFile names svgs) ∧
      names.length = svgs.length ∧
      names.Nodup ∧
      names.head? = some filename ∧
      ∀ k prev, k + 1 < names.length → names[k]? = some prev →
        names[k + 1]? = some (insertBeforeFirstSvg prev (k + 1)) := by
  refine ⟨(writeLoop svgs filename 0).1, ?_, ?_, ?_, ?_, ?_⟩
  · rw [export_svgs_ok svgs filename defaultName hne,
      writeLoop_effects svgs filename 0]
  · rw [writeLoop_names]
    simp
  · rw [writeLoop_names]
    exact (List.nodup_range svgs.length).map (nameSeq_injective filename)
  · cases svgs with
    | nil => exact absurd rfl hne
    | cons s rest => exact writeLoop_head s rest filename
  · intro k prev hk hprev
    rw [writeLoop_names] at hk hprev ⊢
    simp only [List.length_map, List.length_range] at hk
    have hget : ∀ m, m < svgs.length →
        ((List.range svgs.length).map (nameSeq filename))[m]? =
          some (nameSeq filename m) := by
      intro m hm
      rw [List.getElem?_map, List.getElem?_range hm]
      rfl
    rw [hget k (by omega)] at hprev
    rw [hget (k + 1) hk]
    cases Option.some.inj hprev
    rw [nameSeq_succ_insert filename hsvg k]

/-- Witness for C10: three SVGs under filename `f.svg` give
`f.svg`, `f_1.svg`, `f_1_2.svg`. -/
theorem C10_witness :
    (["a".toList, "b".toList, "c".toList] : List Str) ≠ [] ∧
    findSub "f.svg".toList ".svg".toList ≠ none ∧
    (∃ names,
      export_svgs (.ok ["a".toList, "b".toList, "c".toList])
          (some "f.svg".toList) "plot.svg".toList =
        (.ok (some names),
          List.zipWith Effect.writeFile names
            ["a".toList, "b".toList, "c".toList]) ∧
      names.length = (["a".toList, "b".toList, "c".toList] : List Str).length ∧
      names.Nodup ∧
      names.head? = some "f.svg".toList ∧
      ∀ k prev, k + 1 < names.length → names[k]? = some prev →
        names[k + 1]? = some (insertBeforeFirstSvg prev (k + 1))) :=
  ⟨by decide, by decide,
   C10_svg_filename_sequence ["a".toList, "b".toList, "c".toList]
     "f.svg".toList "plot.svg".toList (by decide) (by decide)⟩

/-- C1 counterexample: `export_svgs` does not return absolute paths — with
the relative filename `f.svg` and one SVG, the returned path is `f.svg`
itself, which is not absolute. -/
theorem C1_counterexample :
    (export_svgs (.ok [['x']]) (some "f.svg".toList) "plot.svg".toList).1 =
      .ok (some ["f.svg".toList]) ∧
    isAbs "f.svg".toList = false := by
  constructor <;> rfl

/-- C1 as amended: `export_png` does return an absolute path (the
`abspath` of the chosen filename, absolute because the working directory
is); `export_svgs` returns the list of the paths of the saved SVG files —
the files written are exactly the returned paths, and the first of them is
the given filename itself — but those paths are not made absolute. -/
theorem C1_amended_output_paths (image : Image) (fn? : Option Str)
    (fn defaultName cwd : Str) (svgs : List Str)
    (hcwd : isAbs cwd = true) (hne : svgs ≠ []) :
    (∀ p effs, export_png (.ok image) fn? defaultName cwd = (.ok p, effs) →
      isAbs p = true) ∧
    (∀ names effs,
      export_svgs (.ok svgs) (some fn) defaultName = (.ok (some names), effs) →
      names.head? = some fn ∧
      effs = List.zipWith Effect.writeFile names svgs) := by
  constructor
  · intro p effs heq
    have hred : export_png (.ok image) fn? defaultName cwd =
        if (image.width == 0 || image.height == 0) = true then
          (.error (.valueError "unable to save an empty image"), [])
        else
          (.ok (abspath cwd (fn?.getD defaultName)),
            [.saveImage (fn?.getD defaultName) image]) := rfl
    rw [hred] at heq
    split at heq
    · simp at heq
    · rw [Prod.mk.injEq] at heq
      cases Except.ok.inj heq.1
      exact isAbs_abspath cwd _ hcwd
  · intro names effs heq
    rw [export_svgs_ok svgs fn defaultName hne, Prod.mk.injEq] at heq
    obtain ⟨h1, h2⟩ := heq
    cases Option.some.inj (Except.ok.inj h1)
    subst h2
    constructor
    · cases svgs with
      | nil => exact absurd rfl hne
      | cons s rest => exact writeLoop_head s rest fn
    · exact writeLoop_effects svgs fn 0

/-- Witness for the amended C1 at a concrete image, working directory and
SVG list. -/
theorem C1_witness :
    isAbs "/home/user".toList = true ∧
    (["<svg/>".toList] : List Str) ≠ [] ∧
    ((∀ p effs,
        export_png (.ok ⟨2, 3⟩) (some "p.png".toList) "d.png".toList
            "/home/user".toList = (.ok p, effs) →
        isAbs p = true) ∧
      (∀ names effs,
        export_svgs (.ok ["<svg/>".toList]) (some "f.svg".toList)
            "d.png".toList = (.ok (some names), effs) →
        names.head? = some "f.svg".toList ∧
        effs = List.zipWith Effect.writeFile names ["<svg/>".toList])) :=
  ⟨by decide, by decide,
   C1_amended_output_paths ⟨2, 3⟩ (some "p.png".toList) "f.svg".toList
     "d.png".toList "/home/user".toList ["<svg/>".toList] (by decide)
     (by decide)⟩

/-- The console messages of warning/error severity — the levels the module
treats as such are `WARNING`, `ERROR` and `SEVERE`. -/
def warningErrorMessages (logs : List ConsoleMsg) : List String :=
  (logs.filter (fun l => (["WARNING", "ERROR", "SEVERE"] : List String).contains l.level)).map
    (fun l => l.message)

/-- C7: on every path out of `wait_until_render_complete` — load-timeout
raise, render-timeout return, and normal return — the trace ends with the
surfaced console output, and that output consists of exactly the captured
messages of warning/error severity (all of them, and only them, after a
fixed header), or nothing when there are none. -/
theorem C7_console_messages_surfaced (bl rc : Nat → Bool)
    (logs : List ConsoleMsg) (fuel : Nat) :
    ((logConsole logs = [] ∧ warningErrorMessages logs = []) ∨
      logConsole logs =
        .logWarning consoleHeader ::
          (warningErrorMessages logs).map Effect.logWarning) ∧
    (∃ pre, (wait_until_render_complete bl rc logs fuel).2 =
      pre ++ logConsole logs) := by
  constructor
  · by_cases h : warningErrorMessages logs = []
    · left
      refine ⟨?_, h⟩
      unfold logConsole
      unfold warningErrorMessages at h
      simp only [h, List.length_nil, gt_iff_lt, Nat.lt_irrefl, if_false]
    · right
      unfold logConsole
      unfold warningErrorMessages at h ⊢
      rw [if_pos (by simpa [List.length_pos] using h)]
  · cases hb : pollUntil bl fuel with
    | none =>
      exact ⟨[], by simp [wait_until_render_complete, hb]⟩
    | some k =>
      cases hr : pollUntil rc fuel with
      | none =>
        exact ⟨[.logWarning renderTimeoutWarning],
          by simp [wait_until_render_complete, hb, hr]⟩
      | some m =>
        exact ⟨[], by simp [wait_until_render_complete, hb, hr]⟩

/-- C8: an export run's wait is exactly two polling phases in a fixed
order.  Each phase repeatedly evaluates its condition at consecutive ticks
and stops at the first success or when the fuel (timeout / poll interval)
runs out; the render-complete phase is reached only when the library-loaded
phase succeeded (on a load timeout the run is independent of the
render-complete condition), and when it is reached the run ends normally
with or without the render-timeout warning according to the second poll. -/
theorem C8_two_phase_polling (bl rc : Nat → Bool) (logs : List ConsoleMsg)
    (fuel : Nat) :
    (∀ k, pollUntil bl fuel = some k ↔
        k < fuel ∧ bl k = true ∧ ∀ j, j < k → bl j = false) ∧
    (pollUntil bl fuel = none ↔ ∀ i, i < fuel → bl i = false) ∧
    (pollUntil bl fuel = none →
      (wait_until_render_complete bl rc logs fuel).1 =
          .error (.runtimeError notLoadedMsg) ∧
      ∀ rc₂, wait_until_render_complete bl rc logs fuel =
        wait_until_render_complete bl rc₂ logs fuel) ∧
    (∀ k, pollUntil bl fuel = some k →
      (pollUntil rc fuel = none ∧
          wait_until_render_complete bl rc logs fuel =
            (.ok (), .logWarning renderTimeoutWarning :: logConsole logs)) ∨
      (∃ m, pollUntil rc fuel = some m ∧
          wait_until_render_complete bl rc logs fuel =
            (.ok (), logConsole logs))) := by
  refine ⟨fun k => pollUntil_some_iff bl fuel k, pollUntil_none_iff bl fuel,
    ?_, ?_⟩
  · intro hb
    constructor
    · simp [wait_until_render_complete, hb]
    · intro rc₂; simp [wait_until_render_complete, hb]
  · intro k hb
    cases hr : pollUntil rc fuel with
    | none => exact Or.inl ⟨rfl, by simp [wait_until_render_complete, hb, hr]⟩
    | some m =>
      exact Or.inr ⟨m, rfl, by simp [wait_until_render_complete, hb, hr]⟩

/-- Witness for C8 at concrete conditions (loaded from tick 1, rendered
from tick 2, fuel 4). -/
theorem C8_witness :
    (∀ k, pollUntil (fun i => decide (1 ≤ i)) 4 = some k ↔
        k < 4 ∧ (fun i => decide (1 ≤ i)) k = true ∧
          ∀ j, j < k → (fun i => decide (1 ≤ i)) j = false) ∧
    (pollUntil (fun i => decide (1 ≤ i)) 4 = none ↔
      ∀ i, i < 4 → (fun i => decide (1 ≤ i)) i = false) ∧
    (pollUntil (fun i => decide (1 ≤ i)) 4 = none →
      (wait_until_render_complete (fun i => decide (1 ≤ i))
          (fun i => decide (2 ≤ i)) [] 4).1 =
          .error (.runtimeError notLoadedMsg) ∧
      ∀ rc₂, wait_until_render_complete (fun i => decide (1 ≤ i))
          (fun i => decide (2 ≤ i)) [] 4 =
        wait_until_render_complete (fun i => decide (1 ≤ i)) rc₂ [] 4) ∧
    (∀ k, pollUntil (fun i => decide (1 ≤ i)) 4 = some k →
      (pollUntil (fun i => decide (2 ≤ i)) 4 = none ∧
          wait_until_render_complete (fun i => decide (1 ≤ i))
              (fun i => decide (2 ≤ i)) [] 4 =
            (.ok (), .logWarning renderTimeoutWarning :: logConsole [])) ∨
      (∃ m, pollUntil (fun i => decide (2 ≤ i)) 4 = some m ∧
          wait_until_render_complete (fun i => decide (1 ≤ i))
              (fun i => decide (2 ≤ i)) [] 4 =
            (.ok (), logConsole []))) :=
  C8_two_phase_polling (fun i => decide (1 ≤ i)) (fun i => decide (2 ≤ i)) [] 4

/-- Witness for C9 at a concrete plot and height keyword. -/
theorem C9_witness :
    ((some (some (300 : Int)) : Option (Option Int)) ≠ none ∨
      (none : Option (Option Int)) ≠ none) ∧
    ((get_layout_html true (⟨some 100, some 200, 7⟩ : Plot Nat)
        (some (some 300)) none (fun _ => .ok [])).2.1.plot_height = some 100 ∧
     (get_layout_html true (⟨some 100, some 200, 7⟩ : Plot Nat)
        (some (some 300)) none (fun _ => .ok [])).2.1.plot_width = some 200 ∧
     (get_layout_html true (⟨some 100, some 200, 7⟩ : Plot Nat)
        (some (some 300)) none (fun _ => .ok [])).2.1.rest = 7) :=
  ⟨Or.inl (by simp),
   C9_plot_dims_restored (⟨some 100, some 200, 7⟩ : Plot Nat)
     (some (some 300)) none (fun _ => .ok []) (Or.inl (by simp))⟩

end BokehExport
